import Mathlib

/-!
# Verification of the bulk-delete-with-undo coordinator of `mock-api`

Shallow embedding of the optimistic bulk-deletion workflow implemented in
`src/pages/UsersList.tsx` (the file providing `persistPendingBulkDeletion`,
`readPendingBulkDeletion`, `finalizeBulkDeletion`, `undoBulkDeletion`,
`startBulkDelete` and the rehydration effect).

Modelling conventions:
* The asynchronous browser execution is modelled by pure functions from a
  `CoordinatorState` to a new state together with a linear trace of `Action`s.
  The source runs on a single-threaded event loop and each modelled operation
  performs its awaits sequentially, so the linear trace faithfully records the
  order in which the side effects are issued.
* The Remote Record Store is reached by the coordinator only through
  `deleteUserRequest` (an HTTP DELETE per record); those calls appear in the
  trace as `Action.deleteCall`.  Whether a given delete succeeds is an oracle
  `ok : String → Bool` indexed by the record id.  `queryClient` operations
  (`setQueryData`, `cancelQueries`, `invalidateQueries`) are Local Cache
  operations in the sense of the design document.
* `Date.now()` is passed in as an integer parameter `now` (epoch milliseconds).
  The source calls `Date.now()` twice in quick succession when computing
  `expiresAt` and `initialSeconds`; both reads are modelled by the same `now`.
* Timer and toast handles returned by `setTimeout` / `setInterval` /
  `toast.warning` are modelled by a fresh-handle counter in the state.
* `sessionStorage` is modelled at two levels: a raw level
  (`readPendingBulkDeletion` over an optional string plus a JSON parse
  function) used for the corrupt-data claims, and a typed level (the `slot`
  field of `CoordinatorState` holding an already-validated
  `PendingBulkDeletionStorage`) used by the state-machine operations.
-/

namespace MockApi

/-- JSON values, for the durable-slot blob written to `sessionStorage`. -/
inductive Json : Type
  | null : Json
  | bool (b : Bool) : Json
  | num (n : Int) : Json
  | str (s : String) : Json
  | arr (elems : List Json) : Json
  | obj (fields : List (String × Json)) : Json

/-- Field lookup on a JSON object.  On a non-object this returns `none`:
in the source, property access on a non-object yields `undefined` (or throws
for `null`, which the surrounding `try`/`catch` treats the same way as a
failed validation). -/
def Json.getField : Json → String → Option Json
  | Json.obj fields, key => (fields.find? (fun f => f.1 == key)).map Prod.snd
  | _, _ => none

/-- The key list of a JSON object (empty for non-objects). -/
def Json.keysOf : Json → List String
  | Json.obj fields => fields.map Prod.fst
  | _ => []

/-- A user record, per `userResponseSchema` in
`src/features/users/schemas/users.schema.ts`.  `avatar` and `bio` are the
optional fields of the schema. -/
structure User where
  createdAt : String
  name : String
  phoneNumber : String
  email : String
  avatar : Option String
  active : Bool
  role : String
  bio : Option String
  id : String
  deriving DecidableEq, Repr

/-- JSON serialization of a user record (fields in schema order, optional
fields omitted when absent). -/
def User.toJson (u : User) : Json :=
  Json.obj
    ([("createdAt", Json.str u.createdAt),
      ("name", Json.str u.name),
      ("phoneNumber", Json.str u.phoneNumber),
      ("email", Json.str u.email)]
     ++ (match u.avatar with
        | some a => [("avatar", Json.str a)]
        | none => [])
     ++ [("active", Json.bool u.active),
         ("role", Json.str u.role)]
     ++ (match u.bio with
        | some b => [("bio", Json.str b)]
        | none => [])
     ++ [("id", Json.str u.id)])

/-- Toast ids are `string | number` in the source (`toast.warning` returns a
number, the rehydration path uses the string id
`pending-bulk-delete-restored`). -/
inductive ToastId : Type
  | strId (s : String) : ToastId
  | numId (n : Nat) : ToastId
  deriving DecidableEq, Repr

/-- The kind of a toast notification (`toast.success` / `toast.error` /
`toast.warning`). -/
inductive ToastKind : Type
  | success : ToastKind
  | error : ToastKind
  | warning : ToastKind
  deriving DecidableEq, Repr

/-- The live pending bulk deletion (`PendingBulkDeletion` in the source):
records marked for deletion, the pre-deletion snapshot (`previousUsers`,
`undefined` when the cache held no data), the countdown toast handle, the
expiry timeout handle, the tick interval handle, the absolute expiry
timestamp, and the precomputed message. -/
structure PendingBulkDeletion where
  users : List User
  previousUsers : Option (List User)
  toastId : ToastId
  timeoutId : Nat
  intervalId : Option Nat
  expiresAt : Int
  message : String
  deriving DecidableEq, Repr

/-- The durable mirror (`PendingBulkDeletionStorage` in the source): the same
data minus the timer and toast handles; `previousUsers` is persisted as JSON
`null` when the snapshot was `undefined`. -/
structure PendingBulkDeletionStorage where
  users : List User
  previousUsers : Option (List User)
  expiresAt : Int
  message : String
  deriving DecidableEq, Repr

/-- The durable mirror of a live pending deletion, as built by
`persistPendingBulkDeletion` (lines 50–55 of the source file). -/
def storageOfPending (p : PendingBulkDeletion) : PendingBulkDeletionStorage :=
  { users := p.users
    previousUsers := p.previousUsers
    expiresAt := p.expiresAt
    message := p.message }

/-- One observable side effect issued by the coordinator, in program order. -/
inductive Action : Type
  | persistSlot (payload : Option PendingBulkDeletionStorage) : Action
  | clearTimeoutA (handle : Nat) : Action
  | clearIntervalA (handle : Nat) : Action
  | toastDismiss (id : ToastId) : Action
  | toastShow (kind : ToastKind) (title : String) (description : String)
      (hasUndoAction : Bool) (duration : Option Int) (idArg : Option ToastId) : Action
  | deleteCall (recordId : String) : Action
  | sleep (ms : Nat) : Action
  | cacheWrite (value : Option (List User)) : Action
  | cancelQueriesA : Action
  | invalidateA : Action
  | setTimeoutA (delayMs : Int) (handle : Nat) : Action
  | setIntervalA (delayMs : Int) (handle : Nat) : Action
  deriving DecidableEq, Repr

/-- The record ids of the Remote Record Store delete calls occurring in a
trace, in order. -/
def deleteCalls (tr : List Action) : List String :=
  tr.filterMap (fun a =>
    match a with
    | Action.deleteCall i => some i
    | _ => none)

/-- Whether a trace contains an outcome notification (any toast shown). -/
def showsOutcome (tr : List Action) : Bool :=
  tr.any (fun a =>
    match a with
    | Action.toastShow _ _ _ _ _ _ => true
    | _ => false)

/-- Scans a trace checking that a `sleep` occurs between every two successive
`deleteCall` actions.  The flag records whether a delete call has been seen
with no sleep after it yet. -/
def throttledBetweenCalls : List Action → Bool → Bool
  | [], _ => true
  | Action.deleteCall _ :: rest, needSleep =>
      if needSleep then false else throttledBetweenCalls rest true
  | Action.sleep _ :: rest, _ => throttledBetweenCalls rest false
  | _ :: rest, needSleep => throttledBetweenCalls rest needSleep

/-- The JSON blob written to the durable session slot for a live pending
deletion: `JSON.stringify` of the payload object built in
`persistPendingBulkDeletion`, with `previousUsers` null-coalesced. -/
def persistPayload (value : PendingBulkDeletion) : Json :=
  Json.obj
    [("users", Json.arr (value.users.map User.toJson)),
     ("previousUsers",
       match value.previousUsers with
       | some l => Json.arr (l.map User.toJson)
       | none => Json.null),
     ("expiresAt", Json.num value.expiresAt),
     ("message", Json.str value.message)]

/-- The validation performed by `readPendingBulkDeletion` on a parsed blob:
`Array.isArray(parsed.users)` and a typeof-number check on `parsed.expiresAt`. -/
def validPendingJson (j : Json) : Bool :=
  match j.getField "users", j.getField "expiresAt" with
  | some (Json.arr _), some (Json.num _) => true
  | _, _ => false

/-- `readPendingBulkDeletion` at the raw `sessionStorage` level.  Input: the
JSON parse function and the current slot content (`none` when the key is
absent).  Output: the value returned to the caller (the parsed blob when it
validates) and the slot content after the read.  The source returns early on
a falsy raw value (absent key or empty string) without clearing the slot;
parse errors and validation failures remove the stored item. -/
def readPendingBulkDeletion (parse : String → Option Json) (slot : Option String) :
    Option Json × Option String :=
  match slot with
  | none => (none, none)
  | some raw =>
    if raw = "" then (none, some raw)
    else
      match parse raw with
      | none => (none, none)
      | some parsed =>
        if validPendingJson parsed then (some parsed, some raw)
        else (none, none)

/-- The coordinator-relevant state: the Local Cache entry for
`usersKeys.list()` (`none` when the cache holds no data), the
`pendingBulkDeletion` ref, the typed content of the durable session slot, and
a fresh-handle counter for timer/toast handle allocation. -/
structure CoordinatorState where
  cache : Option (List User)
  pending : Option PendingBulkDeletion
  slot : Option PendingBulkDeletionStorage
  nextHandle : Nat
  deriving DecidableEq, Repr

/-- `queryClient.setQueryData(key, value)` with a direct (non-updater) value:
react-query leaves the cache unchanged when the value is `undefined`. -/
def setCacheData (cache : Option (List User)) (value : Option (List User)) :
    Option (List User) :=
  match value with
  | none => cache
  | some l => some l

/-- `Math.max(0, Math.ceil(msLeft / 1000))`, the seconds shown in the
countdown.  For a positive divisor, `Math.ceil(a / 1000)` on integer inputs
is `⌊(a + 999) / 1000⌋`. -/
def msToSeconds (msLeft : Int) : Int :=
  max 0 (Int.ediv (msLeft + 999) 1000)

/-- The synchronous cleanup performed by both `finalizeBulkDeletion` and
`undoBulkDeletion` once a live pending deletion is found: erase the durable
mirror, cancel the expiry timeout, cancel the tick interval when present,
dismiss the countdown toast (source lines 121–128 and 176–183). -/
def cleanupActions (pending : PendingBulkDeletion) : List Action :=
  Action.persistSlot none ::
  Action.clearTimeoutA pending.timeoutId ::
  ((match pending.intervalId with
    | some h => [Action.clearIntervalA h]
    | none => []) ++ [Action.toastDismiss pending.toastId])

/-- The sequential delete loop of `finalizeBulkDeletion` (source lines
135–144): for each user in selection order, issue the delete; on success
record the name and await a 100 ms timeout; on failure record the name and
continue.  Returns (success names, failed names, trace). -/
def runDeletionLoop (ok : String → Bool) : List User →
    List String × List String × List Action
  | [] => ([], [], [])
  | u :: rest =>
    let r := runDeletionLoop ok rest
    if ok u.id then
      (u.name :: r.1, r.2.1, Action.deleteCall u.id :: Action.sleep 100 :: r.2.2)
    else
      (r.1, u.name :: r.2.1, Action.deleteCall u.id :: r.2.2)

/-- The outcome reconciliation of `finalizeBulkDeletion` (source lines
146–163): all-succeeded shows a success toast; all-failed rolls the cache
back to the snapshot and shows an error toast; mixed shows a warning toast
listing the failed names with a 7000 ms duration.  Returns the new cache
value and the actions. -/
def finalizeOutcome (pending : PendingBulkDeletion) (succ fail : List String)
    (cache : Option (List User)) : Option (List User) × List Action :=
  if fail = [] then
    (cache,
     [Action.toastShow ToastKind.success "Users deleted"
        (toString succ.length ++ " user(s) deleted permanently") false none none])
  else if succ = [] then
    (setCacheData cache pending.previousUsers,
     [Action.cacheWrite pending.previousUsers,
      Action.toastShow ToastKind.error "Failed to delete users"
        ("Could not delete any of the " ++ toString pending.users.length
          ++ " selected user(s)") false none none])
  else
    (cache,
     [Action.toastShow ToastKind.warning "Partial deletion"
        (toString succ.length ++ " deleted, " ++ toString fail.length
          ++ " failed: " ++ String.intercalate ", " fail) false (some 7000) none])

/-- `finalizeBulkDeletion` (source lines 113–166).  With no live pending
deletion it only re-clears the durable slot.  Otherwise it atomically nulls
the ref, erases the durable mirror, cancels both timers and dismisses the
toast (all before any network call), runs the sequential delete loop against
the oracle `ok`, reconciles the outcome, and finally invalidates the cached
list query. -/
def finalizeBulkDeletion (ok : String → Bool) (s : CoordinatorState) :
    CoordinatorState × List Action :=
  match s.pending with
  | none => ({ s with slot := none }, [Action.persistSlot none])
  | some pending =>
    let res := runDeletionLoop ok pending.users
    let outcome := finalizeOutcome pending res.1 res.2.1 s.cache
    ({ cache := outcome.1, pending := none, slot := none, nextHandle := s.nextHandle },
     cleanupActions pending ++ res.2.2 ++ outcome.2 ++ [Action.invalidateA])

/-- `undoBulkDeletion` (source lines 168–192).  With no live pending deletion
it only re-clears the durable slot.  Otherwise it nulls the ref, erases the
durable mirror, cancels both timers, dismisses the countdown toast, writes
the snapshot back into the cache, shows a restoration toast, and invalidates
the cached list query.  It never contacts the Remote Record Store. -/
def undoBulkDeletion (s : CoordinatorState) : CoordinatorState × List Action :=
  match s.pending with
  | none => ({ s with slot := none }, [Action.persistSlot none])
  | some pending =>
    ({ cache := setCacheData s.cache pending.previousUsers, pending := none,
       slot := none, nextHandle := s.nextHandle },
     cleanupActions pending ++
      [Action.cacheWrite pending.previousUsers,
       Action.toastShow ToastKind.success "Undo successful"
         (toString pending.users.length ++ " user(s) restored") false none none,
       Action.invalidateA])

/-- The body of `startBulkDelete` after the awaited force-commit (the `try`
block, source lines 204–285): cancel in-flight list queries, capture the
snapshot, optimistically filter the selected ids out of the working set, show
the countdown toast, start the 5000 ms expiry timeout and the 250 ms tick
interval, record the new pending deletion and persist its durable mirror.
(The UI-local `isBulkProcessing` / selection-clearing state updates are not
modelled.) -/
def startFresh (now : Int) (s1 : CoordinatorState) (u0 : User) (rest : List User) :
    CoordinatorState × List Action :=
  let previousUsers := s1.cache
  let idsToDelete := (u0 :: rest).map User.id
  let newCache := (s1.cache.getD []).filter (fun u => !(idsToDelete.contains u.id))
  let messageBase :=
    match rest with
    | [] => u0.name ++ " removed."
    | _ => toString (u0 :: rest).length ++ " users removed."
  let expiresAt := now + 5000
  let initialSeconds := msToSeconds (expiresAt - now)
  let toastHandle := ToastId.numId s1.nextHandle
  let timeoutHandle := s1.nextHandle + 1
  let intervalHandle := s1.nextHandle + 2
  let p : PendingBulkDeletion :=
    { users := u0 :: rest
      previousUsers := previousUsers
      toastId := toastHandle
      timeoutId := timeoutHandle
      intervalId := some intervalHandle
      expiresAt := expiresAt
      message := messageBase }
  ({ cache := some newCache, pending := some p,
     slot := some (storageOfPending p), nextHandle := s1.nextHandle + 3 },
   [Action.cancelQueriesA,
    Action.cacheWrite (some newCache),
    Action.toastShow ToastKind.warning "Users removed"
      (messageBase ++ " Undo in " ++ toString initialSeconds ++ "s.")
      true (some 5000) none,
    Action.setTimeoutA 5000 timeoutHandle,
    Action.setIntervalA 250 intervalHandle,
    Action.persistSlot (some (storageOfPending p))])

/-- `startBulkDelete` (source lines 194–288).  An empty selection returns
before anything happens (in particular it does not force-commit a prior
pending transaction).  Otherwise the prior pending deletion, if any, is fully
committed by an awaited `finalizeBulkDeletion`, and only then does the new
transaction capture its snapshot and apply its optimistic mutation. -/
def startBulkDelete (ok : String → Bool) (now : Int) (s : CoordinatorState)
    (usersToDelete : List User) : CoordinatorState × List Action :=
  match usersToDelete with
  | [] => (s, [])
  | u0 :: rest =>
    let fin := finalizeBulkDeletion ok s
    let r := startFresh now fin.1 u0 rest
    (r.1, fin.2 ++ r.2)

/-- The message recomputed by the rehydration effect (source lines 302–306):
the persisted message, or the singular/plural fallback when it is falsy. -/
def rehydrateMessage (stored : PendingBulkDeletionStorage) : String :=
  if stored.message = "" then
    match stored.users with
    | [u] => u.name ++ " removed."
    | us => toString us.length ++ " users removed."
  else stored.message

/-- The rehydration effect (source lines 290–385).  It returns immediately if
a pending deletion is already live or the durable slot is empty.  Otherwise it
re-applies the optimistic filter to the working set (falling back to the
persisted snapshot, then to `[]`, when no live data exists), and then either
schedules an immediate commit (a 0 ms timeout, with no toast shown) when the
window has already expired, or re-creates the countdown toast and the expiry
and tick timers from the remaining milliseconds.  In both branches the
re-created pending deletion is recorded and persisted (the `if (timeoutId)`
guard in the source is always taken, since both branches set a timeout). -/
def rehydrate (now : Int) (s : CoordinatorState) : CoordinatorState × List Action :=
  match s.pending with
  | some _ => (s, [])
  | none =>
    match s.slot with
    | none => (s, [])
    | some stored =>
      let idsToDelete := stored.users.map User.id
      let message := rehydrateMessage stored
      let base := s.cache.getD (stored.previousUsers.getD [])
      let newCache := base.filter (fun u => !(idsToDelete.contains u.id))
      let remainingMs := stored.expiresAt - now
      if remainingMs ≤ 0 then
        let timeoutHandle := s.nextHandle
        let p : PendingBulkDeletion :=
          { users := stored.users
            previousUsers := stored.previousUsers
            toastId := ToastId.strId "pending-bulk-delete-restored"
            timeoutId := timeoutHandle
            intervalId := none
            expiresAt := stored.expiresAt
            message := message }
        ({ cache := some newCache, pending := some p,
           slot := some (storageOfPending p), nextHandle := s.nextHandle + 1 },
         [Action.cacheWrite (some newCache),
          Action.setTimeoutA 0 timeoutHandle,
          Action.persistSlot (some (storageOfPending p))])
      else
        let secondsLeft := msToSeconds remainingMs
        let timeoutHandle := s.nextHandle
        let intervalHandle := s.nextHandle + 1
        let p : PendingBulkDeletion :=
          { users := stored.users
            previousUsers := stored.previousUsers
            toastId := ToastId.strId "pending-bulk-delete-restored"
            timeoutId := timeoutHandle
            intervalId := some intervalHandle
            expiresAt := stored.expiresAt
            message := message }
        ({ cache := some newCache, pending := some p,
           slot := some (storageOfPending p), nextHandle := s.nextHandle + 2 },
         [Action.cacheWrite (some newCache),
          Action.toastShow ToastKind.warning "Users removed"
            (message ++ " Undo in " ++ toString secondsLeft ++ "s.")
            true (some remainingMs)
            (some (ToastId.strId "pending-bulk-delete-restored")),
          Action.setTimeoutA remainingMs timeoutHandle,
          Action.setIntervalA 250 intervalHandle,
          Action.persistSlot (some (storageOfPending p))])

/-! ## Sample data used by witnesses and counterexamples -/

/-- A sample user record. -/
def aliceUser : User :=
  { createdAt := "2024-01-01T00:00:00.000Z"
    name := "Alice"
    phoneNumber := "111"
    email := "alice@example.com"
    avatar := none
    active := true
    role := "Admin"
    bio := none
    id := "u1" }

/-- A second sample user record. -/
def bobUser : User :=
  { createdAt := "2024-01-02T00:00:00.000Z"
    name := "Bob"
    phoneNumber := "222"
    email := "bob@example.com"
    avatar := some "https://example.com/bob.png"
    active := false
    role := "User"
    bio := some "hi"
    id := "u2" }

/-- A third sample user record, kept in the working set. -/
def caraUser : User :=
  { createdAt := "2024-01-03T00:00:00.000Z"
    name := "Cara"
    phoneNumber := "333"
    email := "cara@example.com"
    avatar := none
    active := true
    role := "Guest"
    bio := none
    id := "u3" }

/-- A sample live pending deletion over Alice and Bob with the full
three-user working set as snapshot. -/
def pendingSample : PendingBulkDeletion :=
  { users := [aliceUser, bobUser]
    previousUsers := some [aliceUser, bobUser, caraUser]
    toastId := ToastId.numId 7
    timeoutId := 8
    intervalId := some 9
    expiresAt := 10000
    message := "2 users removed." }

/-- A sample coordinator state holding `pendingSample`, with the cache
refreshed in the background to again contain all three users. -/
def stateSample : CoordinatorState :=
  { cache := some [aliceUser, bobUser, caraUser]
    pending := some pendingSample
    slot := some (storageOfPending pendingSample)
    nextHandle := 10 }

/-- A sample pending deletion whose snapshot is `undefined` (the cache held
no data when the bulk delete started). -/
def pendingNoSnapshot : PendingBulkDeletion :=
  { users := [aliceUser]
    previousUsers := none
    toastId := ToastId.numId 3
    timeoutId := 4
    intervalId := none
    expiresAt := 6000
    message := "Alice removed." }

/-- A sample state holding `pendingNoSnapshot` with an empty cache. -/
def stateNoSnapshot : CoordinatorState :=
  { cache := none
    pending := some pendingNoSnapshot
    slot := some (storageOfPending pendingNoSnapshot)
    nextHandle := 5 }

/-- An idle sample state: three users cached, nothing pending, empty slot. -/
def stateIdle : CoordinatorState :=
  { cache := some [aliceUser, bobUser, caraUser]
    pending := none
    slot := none
    nextHandle := 0 }

/-- A sample durable-slot blob for rehydration: Alice and Bob marked for
deletion, three-user snapshot, expiry at t = 10000 ms. -/
def storedSample : PendingBulkDeletionStorage :=
  { users := [aliceUser, bobUser]
    previousUsers := some [aliceUser, bobUser, caraUser]
    expiresAt := 10000
    message := "2 users removed." }

/-- A freshly reloaded state whose durable slot holds `storedSample` and
whose cache is still empty. -/
def stateReloaded : CoordinatorState :=
  { cache := none
    pending := none
    slot := some storedSample
    nextHandle := 0 }

/-- A delete oracle under which the delete of Bob succeeds and every other
delete (in particular that of Alice) fails. -/
def onlyBobOk : String → Bool := fun i => i == "u2"

/-- A delete oracle under which every delete succeeds. -/
def allOk : String → Bool := fun _ => true

/-- A delete oracle under which every delete fails. -/
def noneOk : String → Bool := fun _ => false

/-! ## Helper lemmas -/

theorem deleteCalls_append (l m : List Action) :
    deleteCalls (l ++ m) = deleteCalls l ++ deleteCalls m :=
  List.filterMap_append l m _

theorem deleteCalls_cleanup (p : PendingBulkDeletion) :
    deleteCalls (cleanupActions p) = [] := by
  cases h : p.intervalId <;> simp [cleanupActions, deleteCalls, h]

theorem runDeletionLoop_calls (ok : String → Bool) (us : List User) :
    deleteCalls (runDeletionLoop ok us).2.2 = us.map User.id := by
  induction us with
  | nil => rfl
  | cons u rest ih =>
    by_cases h : ok u.id <;>
      simp [runDeletionLoop, h, deleteCalls, List.filterMap_cons] <;>
      simpa [deleteCalls] using ih

theorem runDeletionLoop_success (ok : String → Bool) (us : List User) :
    (runDeletionLoop ok us).1 = (us.filter (fun u => ok u.id)).map User.name := by
  induction us with
  | nil => rfl
  | cons u rest ih =>
    by_cases h : ok u.id <;> simp [runDeletionLoop, h, List.filter_cons, ih]

theorem runDeletionLoop_failed (ok : String → Bool) (us : List User) :
    (runDeletionLoop ok us).2.1 = (us.filter (fun u => !(ok u.id))).map User.name := by
  induction us with
  | nil => rfl
  | cons u rest ih =>
    by_cases h : ok u.id <;> simp [runDeletionLoop, h, List.filter_cons, ih]

theorem runDeletionLoop_trace (ok : String → Bool) (us : List User) :
    (runDeletionLoop ok us).2.2 =
      us.flatMap (fun u =>
        Action.deleteCall u.id :: (if ok u.id then [Action.sleep 100] else [])) := by
  induction us with
  | nil => rfl
  | cons u rest ih =>
    by_cases h : ok u.id <;> simp [runDeletionLoop, h, ih]

theorem finalizeOutcome_no_calls (p : PendingBulkDeletion) (succ fail : List String)
    (c : Option (List User)) : deleteCalls (finalizeOutcome p succ fail c).2 = [] := by
  unfold finalizeOutcome
  split_ifs <;> simp [deleteCalls]

theorem finalizeOutcome_shows (p : PendingBulkDeletion) (succ fail : List String)
    (c : Option (List User)) : showsOutcome (finalizeOutcome p succ fail c).2 = true := by
  unfold finalizeOutcome
  split_ifs <;> simp [showsOutcome]

theorem deleteCalls_invalidate : deleteCalls [Action.invalidateA] = [] := rfl

theorem finalize_trace_shows_outcome (ok : String → Bool) (s : CoordinatorState)
    (p : PendingBulkDeletion) (hp : s.pending = some p) :
    showsOutcome (finalizeBulkDeletion ok s).2 = true := by
  have h := finalizeOutcome_shows p (runDeletionLoop ok p.users).1
    (runDeletionLoop ok p.users).2.1 s.cache
  simp only [showsOutcome] at h
  simp only [finalizeBulkDeletion, hp, showsOutcome, List.any_append, h,
    Bool.or_true, Bool.true_or]

/-! ## Claims -/

/-- Claim C1: for every live pending bulk deletion, invoking the undo action
cancels the expiry and tick timers, dismisses the countdown notification,
erases the durable session slot, and restores the working set to the
pre-deletion snapshot — the cache content `s.cache` is arbitrary, so this
holds whatever a background refresh wrote into the cache during the window —
and the undo trace contains no Remote Record Store delete call. -/
theorem undo_cancels_restores_and_stays_local
    (s : CoordinatorState) (p : PendingBulkDeletion) (prev : List User)
    (hp : s.pending = some p) (hprev : p.previousUsers = some prev) :
    (undoBulkDeletion s).1.pending = none ∧
    (undoBulkDeletion s).1.slot = none ∧
    (undoBulkDeletion s).1.cache = some prev ∧
    Action.clearTimeoutA p.timeoutId ∈ (undoBulkDeletion s).2 ∧
    (∀ h, p.intervalId = some h → Action.clearIntervalA h ∈ (undoBulkDeletion s).2) ∧
    Action.toastDismiss p.toastId ∈ (undoBulkDeletion s).2 ∧
    Action.persistSlot none ∈ (undoBulkDeletion s).2 ∧
    deleteCalls (undoBulkDeletion s).2 = [] := by
  cases hI : p.intervalId <;>
    simp [undoBulkDeletion, hp, cleanupActions, setCacheData, hprev, hI, deleteCalls]

/-- Claim C1 witness: undoing the live pending deletion of `stateSample`
restores the three-user snapshot and issues no delete call. -/
theorem undo_cancels_restores_witness :
    (undoBulkDeletion stateSample).1.pending = none ∧
    (undoBulkDeletion stateSample).1.slot = none ∧
    (undoBulkDeletion stateSample).1.cache = some [aliceUser, bobUser, caraUser] ∧
    Action.clearTimeoutA pendingSample.timeoutId ∈ (undoBulkDeletion stateSample).2 ∧
    (∀ h, pendingSample.intervalId = some h →
      Action.clearIntervalA h ∈ (undoBulkDeletion stateSample).2) ∧
    Action.toastDismiss pendingSample.toastId ∈ (undoBulkDeletion stateSample).2 ∧
    Action.persistSlot none ∈ (undoBulkDeletion stateSample).2 ∧
    deleteCalls (undoBulkDeletion stateSample).2 = [] :=
  undo_cancels_restores_and_stays_local stateSample pendingSample
    [aliceUser, bobUser, caraUser] rfl rfl

/-- Claim C2 counterexample: the blob written to the durable slot for
`pendingSample` keeps its data under the field names `users` (full record
objects, not bare id strings) and `previousUsers`, not under the
`recordIds` / `snapshotRecords` names the claim asserts; the claimed fields
are simply absent from the persisted object. -/
theorem persist_payload_not_spec_field_names :
    Json.keysOf (persistPayload pendingSample)
      = ["users", "previousUsers", "expiresAt", "message"] ∧
    Json.keysOf (persistPayload pendingSample)
      ≠ ["recordIds", "snapshotRecords", "expiresAt", "message"] ∧
    (persistPayload pendingSample).getField "recordIds" = none ∧
    (persistPayload pendingSample).getField "snapshotRecords" = none :=
  ⟨rfl, by decide, rfl, rfl⟩

/-- Claim C2 (amended): every durable mirror written for a pending bulk
deletion is a JSON object with exactly the four fields `users` (the full
records marked for deletion), `previousUsers` (the snapshot records, or JSON
null when the snapshot was undefined), `expiresAt` (the absolute expiry
timestamp) and `message`, and carries none of the live timer or notification
handles. -/
theorem persist_payload_shape (value : PendingBulkDeletion) :
    Json.keysOf (persistPayload value)
      = ["users", "previousUsers", "expiresAt", "message"] ∧
    (persistPayload value).getField "users"
      = some (Json.arr (value.users.map User.toJson)) ∧
    (persistPayload value).getField "previousUsers"
      = some (match value.previousUsers with
              | some l => Json.arr (l.map User.toJson)
              | none => Json.null) ∧
    (persistPayload value).getField "expiresAt" = some (Json.num value.expiresAt) ∧
    (persistPayload value).getField "message" = some (Json.str value.message) ∧
    (persistPayload value).getField "timeoutId" = none ∧
    (persistPayload value).getField "intervalId" = none ∧
    (persistPayload value).getField "toastId" = none :=
  ⟨rfl, rfl, rfl, rfl, rfl, rfl, rfl, rfl⟩

/-- Claim C9 counterexample: an empty string stored in the durable slot is
unparseable JSON (`JSON.parse` throws on it), yet the read returns early on
the falsy raw value: it reports no pending deletion but leaves the stored
value in the slot instead of discarding it. -/
theorem read_empty_string_left_in_slot :
    (fun (_ : String) => (none : Option Json)) "" = none ∧
    readPendingBulkDeletion (fun _ => none) (some "") = (none, some "") :=
  ⟨rfl, rfl⟩

/-- Claim C9 (amended): reading a durable-slot value that does not parse as
JSON, or whose parse fails the stored-shape validation, returns no pending
deletion — so the coordinator defaults to Idle and never rehydrates a guessed
partial state — and removes the offending value from the slot, except that an
empty-string value is treated like an absent value and left in place. -/
theorem read_discards_malformed (parse : String → Option Json) (raw : String)
    (hbad : ∀ j, parse raw = some j → validPendingJson j = false) :
    (readPendingBulkDeletion parse (some raw)).1 = none ∧
    (raw ≠ "" → readPendingBulkDeletion parse (some raw) = (none, none)) ∧
    (raw = "" → readPendingBulkDeletion parse (some raw) = (none, some "")) := by
  by_cases hr : raw = ""
  · subst hr
    exact ⟨rfl, fun h => absurd rfl h, fun _ => rfl⟩
  · refine ⟨?_, fun _ => ?_, fun h => absurd h hr⟩ <;>
      cases hj : parse raw with
      | none => simp [readPendingBulkDeletion, hr, hj]
      | some j => simp [readPendingBulkDeletion, hr, hj, hbad j hj]

/-- Claim C9 witness: the non-empty unparseable value `oops` is discarded by
the read and no pending deletion is reported. -/
theorem read_discards_malformed_witness :
    (readPendingBulkDeletion (fun _ => none) (some "oops")).1 = none ∧
    ("oops" ≠ "" → readPendingBulkDeletion (fun _ => none) (some "oops") = (none, none)) ∧
    ("oops" = "" → readPendingBulkDeletion (fun _ => none) (some "oops") = (none, some "")) :=
  read_discards_malformed (fun _ => none) "oops" (fun _ h => nomatch h)

/-- Claim C3: committing a live pending bulk deletion puts the cleanup
prefix — durable mirror erased, expiry timer cancelled, tick timer cancelled
when present, notification dismissed, with the pending ref already nulled —
strictly before the first delete network call (the cleanup prefix contains no
delete call); the delete calls are exactly one per selected record, and
triggering commit again on the resulting state issues no delete call at
all. -/
theorem finalize_cleanup_before_network_and_idempotent
    (ok : String → Bool) (s : CoordinatorState) (p : PendingBulkDeletion)
    (hp : s.pending = some p) :
    (∃ post, (finalizeBulkDeletion ok s).2 = cleanupActions p ++ post) ∧
    deleteCalls (cleanupActions p) = [] ∧
    Action.persistSlot none ∈ cleanupActions p ∧
    Action.clearTimeoutA p.timeoutId ∈ cleanupActions p ∧
    (∀ h, p.intervalId = some h → Action.clearIntervalA h ∈ cleanupActions p) ∧
    Action.toastDismiss p.toastId ∈ cleanupActions p ∧
    deleteCalls (finalizeBulkDeletion ok s).2 = p.users.map User.id ∧
    (finalizeBulkDeletion ok s).1.pending = none ∧
    deleteCalls (finalizeBulkDeletion ok (finalizeBulkDeletion ok s).1).2 = [] := by
  refine ⟨⟨(runDeletionLoop ok p.users).2.2
      ++ ((finalizeOutcome p (runDeletionLoop ok p.users).1
            (runDeletionLoop ok p.users).2.1 s.cache).2 ++ [Action.invalidateA]), ?_⟩,
    deleteCalls_cleanup p, ?_, ?_, ?_, ?_, ?_, ?_, ?_⟩
  · simp [finalizeBulkDeletion, hp]
  · cases hI : p.intervalId <;> simp [cleanupActions, hI]
  · cases hI : p.intervalId <;> simp [cleanupActions, hI]
  · cases hI : p.intervalId <;> simp [cleanupActions, hI]
  · cases hI : p.intervalId <;> simp [cleanupActions, hI]
  · simp [finalizeBulkDeletion, hp, deleteCalls_append, deleteCalls_cleanup,
      runDeletionLoop_calls, finalizeOutcome_no_calls, deleteCalls_invalidate]
  · simp [finalizeBulkDeletion, hp]
  · simp [finalizeBulkDeletion, hp, deleteCalls]

/-- Claim C3 witness: committing `stateSample` (all deletes succeeding)
performs the cleanup prefix before any delete call, issues exactly the two
delete calls of the transaction, and a second trigger issues none. -/
theorem finalize_cleanup_before_network_witness :
    (∃ post, (finalizeBulkDeletion allOk stateSample).2
        = cleanupActions pendingSample ++ post) ∧
    deleteCalls (cleanupActions pendingSample) = [] ∧
    Action.persistSlot none ∈ cleanupActions pendingSample ∧
    Action.clearTimeoutA pendingSample.timeoutId ∈ cleanupActions pendingSample ∧
    (∀ h, pendingSample.intervalId = some h →
      Action.clearIntervalA h ∈ cleanupActions pendingSample) ∧
    Action.toastDismiss pendingSample.toastId ∈ cleanupActions pendingSample ∧
    deleteCalls (finalizeBulkDeletion allOk stateSample).2
      = pendingSample.users.map User.id ∧
    (finalizeBulkDeletion allOk stateSample).1.pending = none ∧
    deleteCalls (finalizeBulkDeletion allOk
      (finalizeBulkDeletion allOk stateSample).1).2 = [] :=
  finalize_cleanup_before_network_and_idempotent allOk stateSample pendingSample rfl

/-- Claim C4: after the delete loop of a commit, the working set and
notification follow the three outcome branches — all-succeeded: the cache is
left as optimistically filtered and a success toast shows the count;
all-failed: the cache is rolled back to the snapshot and an error toast is
shown; mixed: the cache is not rolled back and a warning toast lists the
failed names with a 7000 ms duration — and in every branch the final action
of the commit trace is the cache invalidation against the list query. -/
theorem finalize_outcome_reconciliation
    (ok : String → Bool) (s : CoordinatorState) (p : PendingBulkDeletion)
    (hp : s.pending = some p) :
    (p.users.filter (fun u => !(ok u.id)) = [] →
      (finalizeBulkDeletion ok s).1.cache = s.cache ∧
      Action.toastShow ToastKind.success "Users deleted"
        (toString (p.users.filter (fun u => ok u.id)).length
          ++ " user(s) deleted permanently") false none none
        ∈ (finalizeBulkDeletion ok s).2) ∧
    (p.users.filter (fun u => ok u.id) = [] →
      p.users.filter (fun u => !(ok u.id)) ≠ [] →
      (∀ prev, p.previousUsers = some prev →
        (finalizeBulkDeletion ok s).1.cache = some prev) ∧
      Action.toastShow ToastKind.error "Failed to delete users"
        ("Could not delete any of the " ++ toString p.users.length
          ++ " selected user(s)") false none none
        ∈ (finalizeBulkDeletion ok s).2) ∧
    (p.users.filter (fun u => ok u.id) ≠ [] →
      p.users.filter (fun u => !(ok u.id)) ≠ [] →
      (finalizeBulkDeletion ok s).1.cache = s.cache ∧
      Action.toastShow ToastKind.warning "Partial deletion"
        (toString (p.users.filter (fun u => ok u.id)).length ++ " deleted, "
          ++ toString (p.users.filter (fun u => !(ok u.id))).length ++ " failed: "
          ++ String.intercalate ", "
              ((p.users.filter (fun u => !(ok u.id))).map User.name))
        false (some 7000) none ∈ (finalizeBulkDeletion ok s).2) ∧
    (finalizeBulkDeletion ok s).2.getLast? = some Action.invalidateA := by
  refine ⟨fun hfail => ?_, fun hsucc hfail => ?_, fun hsucc hfail => ?_, ?_⟩
  · simp [finalizeBulkDeletion, hp, finalizeOutcome, runDeletionLoop_success,
      runDeletionLoop_failed, hfail]
  · constructor
    · intro prev hprev
      simp [finalizeBulkDeletion, hp, finalizeOutcome, runDeletionLoop_success,
        runDeletionLoop_failed, hsucc, hfail, setCacheData, hprev]
    · simp [finalizeBulkDeletion, hp, finalizeOutcome, runDeletionLoop_success,
        runDeletionLoop_failed, hsucc, hfail]
  · simp [finalizeBulkDeletion, hp, finalizeOutcome, runDeletionLoop_success,
      runDeletionLoop_failed, hsucc, hfail]
  · simp only [finalizeBulkDeletion, hp]
    exact List.getLast?_concat _

/-- Claim C4 witness: committing `stateSample` under the oracle where only
the delete of Bob succeeds hits the mixed branch — the cache stays filtered, the
warning toast lists Alice with a 7000 ms duration, and the trace ends with
the invalidation. -/
theorem finalize_outcome_reconciliation_witness :
    (pendingSample.users.filter (fun u => !(onlyBobOk u.id)) = [] →
      (finalizeBulkDeletion onlyBobOk stateSample).1.cache = stateSample.cache ∧
      Action.toastShow ToastKind.success "Users deleted"
        (toString (pendingSample.users.filter (fun u => onlyBobOk u.id)).length
          ++ " user(s) deleted permanently") false none none
        ∈ (finalizeBulkDeletion onlyBobOk stateSample).2) ∧
    (pendingSample.users.filter (fun u => onlyBobOk u.id) = [] →
      pendingSample.users.filter (fun u => !(onlyBobOk u.id)) ≠ [] →
      (∀ prev, pendingSample.previousUsers = some prev →
        (finalizeBulkDeletion onlyBobOk stateSample).1.cache = some prev) ∧
      Action.toastShow ToastKind.error "Failed to delete users"
        ("Could not delete any of the " ++ toString pendingSample.users.length
          ++ " selected user(s)") false none none
        ∈ (finalizeBulkDeletion onlyBobOk stateSample).2) ∧
    (pendingSample.users.filter (fun u => onlyBobOk u.id) ≠ [] →
      pendingSample.users.filter (fun u => !(onlyBobOk u.id)) ≠ [] →
      (finalizeBulkDeletion onlyBobOk stateSample).1.cache = stateSample.cache ∧
      Action.toastShow ToastKind.warning "Partial deletion"
        (toString (pendingSample.users.filter (fun u => onlyBobOk u.id)).length
          ++ " deleted, "
          ++ toString (pendingSample.users.filter (fun u => !(onlyBobOk u.id))).length
          ++ " failed: "
          ++ String.intercalate ", "
              ((pendingSample.users.filter (fun u => !(onlyBobOk u.id))).map User.name))
        false (some 7000) none ∈ (finalizeBulkDeletion onlyBobOk stateSample).2) ∧
    (finalizeBulkDeletion onlyBobOk stateSample).2.getLast? = some Action.invalidateA :=
  finalize_outcome_reconciliation onlyBobOk stateSample pendingSample rfl

/-- Claim C5 counterexample: committing `stateSample` under the oracle where
the delete of Alice fails and that of Bob succeeds issues the two delete calls with no
delay between them — the ≈100 ms throttle follows only successful deletes, so
the claimed delay between every pair of successive delete calls is absent
here. -/
theorem commit_delay_missing_after_failure :
    deleteCalls (finalizeBulkDeletion onlyBobOk stateSample).2 = ["u1", "u2"] ∧
    throttledBetweenCalls (finalizeBulkDeletion onlyBobOk stateSample).2 false = false :=
  ⟨rfl, rfl⟩

/-- Claim C5 (amended): during commit, delete requests are issued to the
Remote Record Store one at a time in selection order — the trace is the
cleanup prefix followed by, for each selected record in order, its delete
call immediately followed by a 100 ms delay when that delete succeeded (and
by no delay when it failed) — each failure is caught and recorded by name
without aborting the remaining deletions, and no delete call occurs after the
loop. -/
theorem commit_sequential_in_order (ok : String → Bool) (s : CoordinatorState)
    (p : PendingBulkDeletion) (hp : s.pending = some p) :
    (∃ post, (finalizeBulkDeletion ok s).2 =
        cleanupActions p
          ++ (p.users.flatMap (fun u =>
              Action.deleteCall u.id :: (if ok u.id then [Action.sleep 100] else []))
          ++ post) ∧
        deleteCalls post = []) ∧
    deleteCalls (finalizeBulkDeletion ok s).2 = p.users.map User.id ∧
    (runDeletionLoop ok p.users).2.1
      = (p.users.filter (fun u => !(ok u.id))).map User.name := by
  refine ⟨⟨(finalizeOutcome p (runDeletionLoop ok p.users).1
        (runDeletionLoop ok p.users).2.1 s.cache).2 ++ [Action.invalidateA], ?_, ?_⟩,
      ?_, runDeletionLoop_failed ok p.users⟩
  · simp [finalizeBulkDeletion, hp, runDeletionLoop_trace]
  · simp [deleteCalls_append, finalizeOutcome_no_calls, deleteCalls_invalidate]
  · simp [finalizeBulkDeletion, hp, deleteCalls_append, deleteCalls_cleanup,
      runDeletionLoop_calls, finalizeOutcome_no_calls, deleteCalls_invalidate]

/-- Claim C5 witness: committing `stateSample` with every delete succeeding
issues the delete calls for Alice then Bob in order, each followed by the
100 ms delay, with an empty failure list. -/
theorem commit_sequential_in_order_witness :
    (∃ post, (finalizeBulkDeletion allOk stateSample).2 =
        cleanupActions pendingSample
          ++ (pendingSample.users.flatMap (fun u =>
              Action.deleteCall u.id
                :: (if allOk u.id then [Action.sleep 100] else []))
          ++ post) ∧
        deleteCalls post = []) ∧
    deleteCalls (finalizeBulkDeletion allOk stateSample).2
      = pendingSample.users.map User.id ∧
    (runDeletionLoop allOk pendingSample.users).2.1
      = (pendingSample.users.filter (fun u => !(allOk u.id))).map User.name :=
  commit_sequential_in_order allOk stateSample pendingSample rfl

/-- Claim C6: starting a bulk delete with a non-empty selection while a
transaction is pending first fully commits it — the trace of the new start is
the complete commit trace of the prior transaction (containing one delete
call per prior record and an outcome notification) followed by the actions of
the new transaction, which issue no delete call; the new pending snapshot is
captured from the post-commit cache and the new optimistic cache write occurs
only in the suffix. -/
theorem start_forces_prior_commit (ok : String → Bool) (now : Int)
    (s : CoordinatorState) (p : PendingBulkDeletion) (u0 : User) (rest : List User)
    (hp : s.pending = some p) :
    ∃ newActs q,
      (startBulkDelete ok now s (u0 :: rest)).2
        = (finalizeBulkDeletion ok s).2 ++ newActs ∧
      deleteCalls (finalizeBulkDeletion ok s).2 = p.users.map User.id ∧
      showsOutcome (finalizeBulkDeletion ok s).2 = true ∧
      deleteCalls newActs = [] ∧
      (startBulkDelete ok now s (u0 :: rest)).1.pending = some q ∧
      q.previousUsers = (finalizeBulkDeletion ok s).1.cache ∧
      Action.cacheWrite (some (((finalizeBulkDeletion ok s).1.cache.getD []).filter
        (fun u => !(((u0 :: rest).map User.id).contains u.id)))) ∈ newActs := by
  refine ⟨(startFresh now (finalizeBulkDeletion ok s).1 u0 rest).2,
    (startFresh now (finalizeBulkDeletion ok s).1 u0 rest).1.pending.getD
      pendingSample, rfl, ?_, ?_, ?_, ?_, ?_, ?_⟩
  · simp [finalizeBulkDeletion, hp, deleteCalls_append, deleteCalls_cleanup,
      runDeletionLoop_calls, finalizeOutcome_no_calls, deleteCalls_invalidate]
  · exact finalize_trace_shows_outcome ok s p hp
  · simp [startFresh, deleteCalls]
  · simp [startBulkDelete, startFresh]
  · simp [startFresh]
  · simp [startFresh]

/-- Claim C6 witness: starting a bulk delete of Cara while `stateSample` has
Alice and Bob pending forces their commit (two delete calls, outcome toast)
before the new transaction acts. -/
theorem start_forces_prior_commit_witness :
    ∃ newActs q,
      (startBulkDelete allOk 20000 stateSample [caraUser]).2
        = (finalizeBulkDeletion allOk stateSample).2 ++ newActs ∧
      deleteCalls (finalizeBulkDeletion allOk stateSample).2
        = pendingSample.users.map User.id ∧
      showsOutcome (finalizeBulkDeletion allOk stateSample).2 = true ∧
      deleteCalls newActs = [] ∧
      (startBulkDelete allOk 20000 stateSample [caraUser]).1.pending = some q ∧
      q.previousUsers = (finalizeBulkDeletion allOk stateSample).1.cache ∧
      Action.cacheWrite (some (((finalizeBulkDeletion allOk stateSample).1.cache.getD
        []).filter (fun u => !(([caraUser].map User.id).contains u.id)))) ∈ newActs :=
  start_forces_prior_commit allOk 20000 stateSample pendingSample caraUser [] rfl

/-- Claim C7: on startup with a persisted pending deletion and no live
pending ref, rehydration re-applies the optimistic filter to the working set
using the persisted record ids (falling back to the persisted snapshot when
the cache holds no data); when the window has already expired it schedules an
immediate commit (0 ms timeout, no notification, no tick timer), and
otherwise it recreates the countdown notification and the expiry and tick
timers from the remaining milliseconds. -/
theorem rehydrate_restores_pending (now : Int) (s : CoordinatorState)
    (stored : PendingBulkDeletionStorage)
    (hp : s.pending = none) (hs : s.slot = some stored) :
    (rehydrate now s).1.cache
      = some ((s.cache.getD (stored.previousUsers.getD [])).filter
          (fun u => !((stored.users.map User.id).contains u.id))) ∧
    (stored.expiresAt - now ≤ 0 →
      Action.setTimeoutA 0 s.nextHandle ∈ (rehydrate now s).2 ∧
      showsOutcome (rehydrate now s).2 = false ∧
      (∃ q, (rehydrate now s).1.pending = some q ∧ q.intervalId = none)) ∧
    (0 < stored.expiresAt - now →
      Action.toastShow ToastKind.warning "Users removed"
        (rehydrateMessage stored ++ " Undo in "
          ++ toString (msToSeconds (stored.expiresAt - now)) ++ "s.")
        true (some (stored.expiresAt - now))
        (some (ToastId.strId "pending-bulk-delete-restored")) ∈ (rehydrate now s).2 ∧
      Action.setTimeoutA (stored.expiresAt - now) s.nextHandle ∈ (rehydrate now s).2 ∧
      Action.setIntervalA 250 (s.nextHandle + 1) ∈ (rehydrate now s).2) ∧
    (∃ q, (rehydrate now s).1.pending = some q ∧ q.users = stored.users ∧
      q.previousUsers = stored.previousUsers ∧ q.expiresAt = stored.expiresAt) := by
  by_cases h : stored.expiresAt - now ≤ 0
  · refine ⟨?_, fun _ => ⟨?_, ?_, ?_⟩, fun hlt => absurd hlt (by omega), ?_⟩ <;>
      simp [rehydrate, hp, hs, h, showsOutcome]
  · refine ⟨?_, fun hle => absurd hle h, fun _ => ⟨?_, ?_, ?_⟩, ?_⟩ <;>
      simp [rehydrate, hp, hs, h]

/-- Claim C7 witness (expired window): rehydrating `stateReloaded` at
t = 12000 ms (past the 10000 ms expiry) filters the persisted ids out of the
snapshot fallback and schedules an immediate commit with no toast. -/
theorem rehydrate_restores_pending_witness :
    (rehydrate 12000 stateReloaded).1.cache
      = some ((stateReloaded.cache.getD (storedSample.previousUsers.getD [])).filter
          (fun u => !((storedSample.users.map User.id).contains u.id))) ∧
    (storedSample.expiresAt - 12000 ≤ 0 →
      Action.setTimeoutA 0 stateReloaded.nextHandle ∈ (rehydrate 12000 stateReloaded).2 ∧
      showsOutcome (rehydrate 12000 stateReloaded).2 = false ∧
      (∃ q, (rehydrate 12000 stateReloaded).1.pending = some q ∧
        q.intervalId = none)) ∧
    (0 < storedSample.expiresAt - 12000 →
      Action.toastShow ToastKind.warning "Users removed"
        (rehydrateMessage storedSample ++ " Undo in "
          ++ toString (msToSeconds (storedSample.expiresAt - 12000)) ++ "s.")
        true (some (storedSample.expiresAt - 12000))
        (some (ToastId.strId "pending-bulk-delete-restored"))
          ∈ (rehydrate 12000 stateReloaded).2 ∧
      Action.setTimeoutA (storedSample.expiresAt - 12000) stateReloaded.nextHandle
        ∈ (rehydrate 12000 stateReloaded).2 ∧
      Action.setIntervalA 250 (stateReloaded.nextHandle + 1)
        ∈ (rehydrate 12000 stateReloaded).2) ∧
    (∃ q, (rehydrate 12000 stateReloaded).1.pending = some q ∧
      q.users = storedSample.users ∧ q.previousUsers = storedSample.previousUsers ∧
      q.expiresAt = storedSample.expiresAt) :=
  rehydrate_restores_pending 12000 stateReloaded storedSample rfl rfl

/-- Claim C8: with no pending transaction, starting a bulk delete of a
non-empty selection replaces the working set by exactly the cached records
whose id is not among the selected ids; and for every state — in particular
one with a live pending transaction — starting with an empty selection
returns before anything happens: no state change and no action at all, hence
no notification shown and no force-commit of a prior pending transaction
(the guard sits before the awaited `finalizeBulkDeletion`). -/
theorem start_filters_exactly_or_noop (ok : String → Bool) (now : Int)
    (s : CoordinatorState) (usersToDelete : List User) :
    (s.pending = none → usersToDelete ≠ [] →
      ∃ l, (startBulkDelete ok now s usersToDelete).1.cache = some l ∧
        ∀ u, u ∈ l ↔ u ∈ s.cache.getD [] ∧ u.id ∉ usersToDelete.map User.id) ∧
    (usersToDelete = [] → startBulkDelete ok now s usersToDelete = (s, [])) := by
  constructor
  · intro hp hne
    match usersToDelete, hne with
    | u0 :: rest, _ =>
      refine ⟨(s.cache.getD []).filter
          (fun u => !(((u0 :: rest).map User.id).contains u.id)), ?_, ?_⟩
      · simp [startBulkDelete, startFresh, finalizeBulkDeletion, hp]
      · intro u
        simp [List.mem_filter]
  · intro he
    subst he
    rfl

/-- Claim C8 witness: from the idle three-user state, bulk deleting Alice and
Bob leaves exactly Cara; and starting with an empty selection on
`stateSample`, which holds a live pending transaction, changes nothing and
emits no action — the pending transaction is not force-committed. -/
theorem start_filters_exactly_witness :
    (∃ l, (startBulkDelete allOk 1000 stateIdle [aliceUser, bobUser]).1.cache = some l ∧
      ∀ u, u ∈ l ↔ u ∈ stateIdle.cache.getD [] ∧
        u.id ∉ [aliceUser, bobUser].map User.id) ∧
    startBulkDelete allOk 1000 stateSample [] = (stateSample, []) :=
  ⟨(start_filters_exactly_or_noop allOk 1000 stateIdle [aliceUser, bobUser]).1
      rfl (by decide),
   (start_filters_exactly_or_noop allOk 1000 stateSample []).2 rfl⟩

/-- Claim C10: when the cache held no data at bulk-delete start, the captured
snapshot is `undefined` and persisted as JSON null; in that case both the
undo restore and the all-failed rollback write an undefined value, which
react-query treats as a no-op — the cache is left unchanged, and only the
invalidation issued afterwards can bring the records back. -/
theorem missing_snapshot_writes_are_noops (ok : String → Bool) (now : Int)
    (s0 s1 : CoordinatorState) (p : PendingBulkDeletion) (u0 : User) (rest : List User)
    (h0p : s0.pending = none) (h0c : s0.cache = none)
    (h1p : s1.pending = some p) (hprev : p.previousUsers = none)
    (hne : p.users ≠ []) (hfail : ∀ u ∈ p.users, ok u.id = false) :
    (∃ q, (startBulkDelete ok now s0 (u0 :: rest)).1.pending = some q ∧
      q.previousUsers = none ∧
      (startBulkDelete ok now s0 (u0 :: rest)).1.slot = some (storageOfPending q) ∧
      (persistPayload q).getField "previousUsers" = some Json.null) ∧
    ((undoBulkDeletion s1).1.cache = s1.cache ∧
      Action.invalidateA ∈ (undoBulkDeletion s1).2) ∧
    ((finalizeBulkDeletion ok s1).1.cache = s1.cache ∧
      Action.invalidateA ∈ (finalizeBulkDeletion ok s1).2) := by
  have hsucc : p.users.filter (fun u => ok u.id) = [] :=
    List.filter_eq_nil_iff.mpr (fun u hu => by simp [hfail u hu])
  have hfilterAll : p.users.filter (fun u => !(ok u.id)) = p.users :=
    List.filter_eq_self.mpr (fun u hu => by simp [hfail u hu])
  refine ⟨⟨{ users := u0 :: rest
             previousUsers := none
             toastId := ToastId.numId s0.nextHandle
             timeoutId := s0.nextHandle + 1
             intervalId := some (s0.nextHandle + 2)
             expiresAt := now + 5000
             message := (match rest with
               | [] => u0.name ++ " removed."
               | _ => toString (u0 :: rest).length ++ " users removed.") },
      ?_, rfl, ?_, rfl⟩, ⟨?_, ?_⟩, ⟨?_, ?_⟩⟩
  · simp [startBulkDelete, startFresh, finalizeBulkDeletion, h0p, h0c]
  · simp [startBulkDelete, startFresh, finalizeBulkDeletion, h0p, h0c, storageOfPending]
  · cases hI : p.intervalId <;>
      simp [undoBulkDeletion, h1p, setCacheData, hprev]
  · cases hI : p.intervalId <;>
      simp [undoBulkDeletion, h1p, cleanupActions, hI]
  · simp [finalizeBulkDeletion, h1p, finalizeOutcome, runDeletionLoop_success,
      runDeletionLoop_failed, hsucc, hfilterAll, hne, setCacheData, hprev]
  · cases hI : p.intervalId <;>
      simp [finalizeBulkDeletion, h1p, cleanupActions, hI]

/-- A state with an empty cache, nothing pending and an empty slot, used as
the starting point of the Claim C10 witness. -/
def stateEmptyIdle : CoordinatorState :=
  { cache := none
    pending := none
    slot := none
    nextHandle := 0 }

/-- Claim C10 witness: starting a bulk delete of Bob from the empty cache
captures an undefined snapshot persisted as null; undoing or all-failed
committing `stateNoSnapshot` leaves its (empty) cache untouched while still
invalidating. -/
theorem missing_snapshot_writes_are_noops_witness :
    (∃ q, (startBulkDelete noneOk 0 stateEmptyIdle [bobUser]).1.pending = some q ∧
      q.previousUsers = none ∧
      (startBulkDelete noneOk 0 stateEmptyIdle [bobUser]).1.slot
        = some (storageOfPending q) ∧
      (persistPayload q).getField "previousUsers" = some Json.null) ∧
    ((undoBulkDeletion stateNoSnapshot).1.cache = stateNoSnapshot.cache ∧
      Action.invalidateA ∈ (undoBulkDeletion stateNoSnapshot).2) ∧
    ((finalizeBulkDeletion noneOk stateNoSnapshot).1.cache = stateNoSnapshot.cache ∧
      Action.invalidateA ∈ (finalizeBulkDeletion noneOk stateNoSnapshot).2) :=
  missing_snapshot_writes_are_noops noneOk 0 stateEmptyIdle stateNoSnapshot
    pendingNoSnapshot bobUser [] rfl rfl rfl rfl (by decide) (by decide)

end MockApi
